import Mathlib

/-!
Verification of the process-supervisor core of `fm-skin-builder`
(`src/frontend/src-tauri/src/process.rs`).

The Rust source is shallowly embedded:
* pure helpers (`build_cli_args`, `parse_progress`, `get_log_level`, the
  completion-message computation) become Lean functions over `String`/`List`;
* the event sink (`window.emit`) becomes an oracle `emitOk : Nat → Bool`
  consulted at a running emit index, recording delivered events in a trace;
* `run_python_task` is split into a sequential pre-spawn phase (`runPre`,
  mirroring lines 159-320 of the source) and a step machine (`machStep`)
  for the concurrent phase: the two output-streamer tasks, the wait/poll
  loop, and an externally arriving cancellation, interleaved by an explicit
  schedule (`List Choice`);
* `stop_python_task` becomes a function of the shared slot contents and a
  kill-result oracle.
Machine integers: the Rust `u32` parses are modelled as `Nat` with an
explicit `< 2^32` bound; exit codes are `Int`.
-/

namespace FmSkinBuilder

/-- Rust `str::contains(pat)`: substring containment (modelled on the
character lists; the sources only use ASCII patterns). -/
def containsStr (s pat : String) : Bool :=
  (List.range (s.toList.length + 1)).any
    (fun i => List.isPrefixOf pat.toList (s.toList.drop i))

/-- Rust `str::trim()`: strip leading and trailing whitespace. (Defined on
the character list so it computes by kernel reduction.) -/
def rustTrim (s : String) : String :=
  String.mk
    (((s.toList.dropWhile Char.isWhitespace).reverse.dropWhile
      Char.isWhitespace).reverse)

/-- Worker for `splitWhitespace`: `acc` holds the current token reversed. -/
def splitWsAux : List Char → List Char → List String
  | [], acc => if acc = [] then [] else [String.mk acc.reverse]
  | c :: rest, acc =>
      if c.isWhitespace then
        if acc = [] then splitWsAux rest []
        else String.mk acc.reverse :: splitWsAux rest []
      else splitWsAux rest (c :: acc)

/-- Rust `str::split_whitespace()`: maximal non-whitespace runs. -/
def splitWhitespace (s : String) : List String :=
  splitWsAux s.toList []

/-- The characters before the first occurrence of `pat` (the whole list
when `pat` does not occur). -/
def takeUntilSubstr (pat : List Char) : List Char → List Char
  | [] => []
  | c :: rest =>
      if List.isPrefixOf pat (c :: rest) then []
      else c :: takeUntilSubstr pat rest

/-- Rust `line.split(pat).next().unwrap_or(line)`: the first split
segment, i.e. the text before the first occurrence of `pat`. -/
def splitFirst (s pat : String) : String :=
  String.mk (takeUntilSubstr pat.toList s.toList)

/-- Rust `str::to_uppercase()` restricted to ASCII (the classifier's
patterns are ASCII, plus the case-invariant glyph `✗`). -/
def toUpperStr (s : String) : String :=
  String.mk (s.toList.map Char.toUpper)

/-- Rust `str::parse::<u32>()`: an optional leading `+`, then one or more
ASCII digits, value below `2^32` (overflow is a parse error). -/
def parseU32 (s : String) : Option Nat :=
  let cs := s.toList
  let ds := match cs with
    | '+' :: rest => rest
    | _ => cs
  if ds ≠ [] ∧ ds.all Char.isDigit then
    let n := ds.foldl (fun a c => a * 10 + (c.toNat - 48)) 0
    if n < 2 ^ 32 then some n else none
  else none

/-- Rust `str::trim_end_matches(':')`: strip every trailing colon. -/
def trimEndMatchesColon (s : String) : String :=
  String.mk ((s.toList.reverse.dropWhile (fun c => c = ':')).reverse)

/-- `TaskConfig` (process.rs lines 24-31). -/
structure TaskConfig where
  skin_path : String
  bundles_path : String
  debug_export : Bool
  dry_run : Bool
deriving DecidableEq

/-- `build_cli_args` (process.rs lines 63-86). -/
def build_cli_args (config : TaskConfig) : Except String (List String) :=
  let skin := rustTrim config.skin_path
  if skin = "" then
    .error "Skin folder is required."
  else
    let args := ["patch", skin]
    let args := args ++ (if rustTrim config.bundles_path ≠ "" then
      ["--bundle", rustTrim config.bundles_path] else [])
    let args := args ++ (if config.debug_export then ["--debug-export"] else [])
    let args := args ++ (if config.dry_run then ["--dry-run"] else [])
    .ok args

/-- The body of the pattern-1 scan of `parse_progress` at index `i`
(process.rs lines 93-107): `parts[i] == "bundle"`, `parts.get(i+2) ==
Some("of")`, both numbers parse. -/
def pat1At (parts : List String) (i : Nat) : Option (Nat × Nat × String) :=
  if parts.getD i "" = "bundle" ∧ parts.getD (i + 2) "" = "of" then
    match parseU32 (parts.getD (i + 1) ""),
          parseU32 (trimEndMatchesColon (parts.getD (i + 3) "")) with
    | some current, some total =>
        some (current, total,
          if i + 4 < parts.length then
            "Processing bundle " ++ String.intercalate " " (parts.drop (i + 4))
          else
            "Processing bundle")
    | _, _ => none
  else none

/-- The body of the pattern-2 scan of `parse_progress` at index `i`
(process.rs lines 113-122): `words[i+1] == "of"`, both neighbours parse. -/
def pat2At (line : String) (words : List String) (i : Nat) :
    Option (Nat × Nat × String) :=
  if words.getD (i + 1) "" = "of" then
    match parseU32 (words.getD i ""), parseU32 (words.getD (i + 2) "") with
    | some current, some total =>
        some (current, total, rustTrim (splitFirst line "==="))
    | _, _ => none
  else none

/-- `parse_progress` (process.rs lines 89-126). -/
def parse_progress (line : String) : Option (Nat × Nat × String) :=
  let viaMarker :=
    if containsStr line "=== Processing bundle" then
      let parts := splitWhitespace line
      (List.range (parts.length - 3)).findSome? (pat1At parts)
    else none
  match viaMarker with
  | some r => some r
  | none =>
      if containsStr line " of " then
        let words := splitWhitespace line
        (List.range (words.length - 2)).findSome? (pat2At line words)
      else none

/-- `get_log_level` (process.rs lines 129-144). -/
def get_log_level (line : String) : String :=
  let lineUpper := toUpperStr line
  if containsStr lineUpper "ERROR" || containsStr lineUpper "✗" ||
      containsStr lineUpper "CRITICAL" then
    "error"
  else if containsStr lineUpper "WARN" || containsStr lineUpper "WARNING" then
    "warning"
  else if containsStr lineUpper "DEBUG" then
    "info"
  else
    "info"

/-- `std::process::ExitStatus`, abstracted: an optional numeric code and
the success flag. -/
structure ExitStatus where
  code : Option Int
  success : Bool
deriving DecidableEq

/-- `exit_status.code().unwrap_or(-1)` (process.rs line 438). -/
def completion_exit_code (status : ExitStatus) : Int :=
  status.code.getD (-1)

/-- The completion message computation (process.rs lines 442-459). -/
def completion_message (success : Bool) (dryRun : Bool) (exitCode : Int) :
    String :=
  if success then
    if dryRun then
      "✓ Preview completed successfully. No bundles were modified during this dry run."
    else
      "✓ Build completed successfully. All bundles have been created."
  else if dryRun then
    "✗ Preview failed with exit code " ++ toString exitCode ++
      ". Check the logs for details."
  else
    "✗ Build failed with exit code " ++ toString exitCode ++
      ". Check the logs for details."

/-- The four event kinds delivered to the sink (`window.emit` targets in
process.rs). -/
inductive Event where
  | taskStarted (message : String)
  | buildLog (message level : String)
  | buildProgress (current total : Nat) (status : String)
  | buildComplete (success : Bool) (exitCode : Int) (message : String)
deriving DecidableEq

/-- Sink bookkeeping: the trace of delivered events, the index of the next
emit attempt (consulted against the `emitOk` oracle), and how many times
`Command::spawn` has run. -/
structure EmitState where
  trace : List Event
  emitIdx : Nat
  spawnCount : Nat
deriving DecidableEq

/-- A child handle: the two pipe handles, each still attached
(`some lines`) or already taken (`none`). -/
structure Child where
  stdoutPipe : Option (List String)
  stderrPipe : Option (List String)
deriving DecidableEq

/-- `CommandResult` (events.rs): the value `run_python_task` returns. -/
structure CommandResult where
  stdout : String
  stderr : String
  status : Int
deriving DecidableEq

/-- One outcome of `child.try_wait()` inside the wait loop
(process.rs lines 400-422). -/
inductive PollStep where
  | exited (status : ExitStatus)
  | running
  | waitErr (msg : String)
deriving DecidableEq

/-- The environment a run interacts with: window lookup, the sink
(delivery decided per emit index by `emitOk`), filesystem and process
facts, stream contents, the sequence of `try_wait` answers, and the two
`JoinHandle::await` outcomes. -/
structure RunEnv where
  windowFound : Bool
  emitOk : Nat → Bool
  emitErrMsg : String
  pythonPath : String
  isWindows : Bool
  debugAssertions : Bool
  resolveBackend : Except String String
  backendExists : Bool
  cacheDir : Except String String
  cacheDirExists : Bool
  createCacheResult : Except String Unit
  spawnErr : Option String
  stdoutPipe : Option (List String)
  stderrPipe : Option (List String)
  pollSteps : List PollStep
  stdoutJoinOk : Bool
  stderrJoinOk : Bool
  joinErrMsg : String

/-- One `window.emit(...)` attempt: whether it succeeded, and the updated
sink state (the trace records only delivered events; the attempt index
always advances). -/
def tryEmit (env : RunEnv) (e : Event) (s : EmitState) : Bool × EmitState :=
  let ok := env.emitOk s.emitIdx
  (ok, { s with
    emitIdx := s.emitIdx + 1
    trace := if ok then s.trace ++ [e] else s.trace })

/-- A `let _ = window.emit(...)`: the result is dropped. -/
def emitIgnore (env : RunEnv) (e : Event) (s : EmitState) : EmitState :=
  (tryEmit env e s).2

/-- The per-line body of each streamer task (process.rs lines 330-355 and
364-389): a best-effort `build_progress` when the parser matches with a
positive total, then a best-effort `build_log`. -/
def processLine (env : RunEnv) (line : String) (s : EmitState) : EmitState :=
  let s1 := match parse_progress line with
    | some r => if r.2.1 > 0 then
        emitIgnore env (.buildProgress r.1 r.2.1 r.2.2) s
      else s
    | none => s
  emitIgnore env (.buildLog line (get_log_level line)) s1

/-- A whole streamer task run to end-of-stream (process.rs lines 328-358):
processes every line and accumulates it. -/
def streamTask (env : RunEnv) (lines : List String) (es : EmitState)
    (acc : List String) : EmitState × List String :=
  match lines with
  | [] => (es, acc)
  | l :: rest => streamTask env rest (processLine env l es) (acc ++ [l])

/-- The release-build binary name (process.rs lines 227-231). -/
def backendBinaryName (env : RunEnv) : String :=
  if env.isWindows then "resources/backend/fm_skin_builder.exe"
  else "resources/backend/fm_skin_builder"

/-- Command construction (process.rs lines 220-247): in debug builds the
venv python is used directly; in release builds the bundled backend binary
is resolved and must exist. -/
def resolveCommand (env : RunEnv) : Except String Unit :=
  if env.debugAssertions then .ok ()
  else
    match env.resolveBackend with
    | .error e => .error ("Failed to resolve backend binary path: " ++ e)
    | .ok p =>
        if env.backendExists then .ok ()
        else .error ("Backend binary not found at: " ++ p ++
          "\nExpected binary name: " ++ backendBinaryName env)

/-- Cache directory setup (process.rs lines 254-262). -/
def cacheDirSetup (env : RunEnv) : Except String String :=
  match env.cacheDir with
  | .error e => .error ("Failed to get cache dir: " ++ e)
  | .ok d =>
      if env.cacheDirExists then .ok d
      else
        match env.createCacheResult with
        | .error e => .error ("Failed to create cache dir: " ++ e)
        | .ok _ => .ok d

/-- The `{:?}` rendering of the argument vector (process.rs line 288). -/
def rustDebugList (args : List String) : String :=
  "[" ++ String.intercalate ", " (args.map (fun a => "\x22" ++ a ++ "\x22")) ++ "]"

/-- Result of the sequential pre-spawn phase of `run_python_task`: the
sink state, the shared slot contents afterwards, and either the captured
stdout/stderr line streams or the error returned to the caller. -/
structure PreOut where
  emits : EmitState
  slot : Option Child
  outcome : Except String (List String × List String)

/-- The sequential phase of `run_python_task` (process.rs lines 159-320):
window lookup, milestone and status emits, argument building, command
resolution, cache setup, spawn, pipe capture, and publication of the
handle to the shared slot. `slot0` is the slot contents at entry. -/
def runPre (env : RunEnv) (config : TaskConfig) (slot0 : Option Child) :
    PreOut :=
  let es : EmitState := { trace := [], emitIdx := 0, spawnCount := 0 }
  if env.windowFound = false then
    ⟨es, slot0, .error "'main' window not found"⟩
  else
    let r1 := tryEmit env (.taskStarted "Initializing backend...") es
    if r1.1 = false then
      ⟨r1.2, slot0, .error ("Failed to emit task_started: " ++ env.emitErrMsg)⟩
    else
      let r2 := tryEmit env (.buildLog "Validating configuration..." "info") r1.2
      if r2.1 = false then
        ⟨r2.2, slot0, .error ("Failed to emit build_log: " ++ env.emitErrMsg)⟩
      else
        match build_cli_args config with
        | .error e =>
            let msg := "Configuration error: " ++ e
            let r3 := tryEmit env (.buildLog msg "error") r2.2
            ⟨r3.2, slot0, .error msg⟩
        | .ok cliArgs =>
            let r4 := tryEmit env
              (.buildLog "Starting Python backend (cold start may take a moment)..." "info") r2.2
            if r4.1 = false then
              ⟨r4.2, slot0, .error ("Failed to emit: " ++ env.emitErrMsg)⟩
            else
              let r5 := tryEmit env
                (.buildLog ("Using Python: " ++ env.pythonPath) "info") r4.2
              if r5.1 = false then
                ⟨r5.2, slot0, .error ("Failed to emit: " ++ env.emitErrMsg)⟩
              else
                match resolveCommand env with
                | .error e => ⟨r5.2, slot0, .error e⟩
                | .ok _ =>
                    match cacheDirSetup env with
                    | .error e => ⟨r5.2, slot0, .error e⟩
                    | .ok cacheDir =>
                        let r6 := tryEmit env
                          (.buildLog ("Using cache directory: " ++ cacheDir) "info") r5.2
                        if r6.1 = false then
                          ⟨r6.2, slot0, .error ("Failed to emit: " ++ env.emitErrMsg)⟩
                        else
                          let r7 := tryEmit env
                            (.buildLog ("Spawning process with args: " ++
                              rustDebugList cliArgs) "info") r6.2
                          if r7.1 = false then
                            ⟨r7.2, slot0, .error ("Failed to emit: " ++ env.emitErrMsg)⟩
                          else
                            match env.spawnErr with
                            | some e =>
                                ⟨r7.2, slot0, .error ("Failed to spawn Python process: " ++ e ++
                                  ". Check that Python is installed and accessible.")⟩
                            | none =>
                                let es8 := { r7.2 with spawnCount := r7.2.spawnCount + 1 }
                                let r8 := tryEmit env
                                  (.buildLog "Backend process spawned successfully, processing..." "info") es8
                                if r8.1 = false then
                                  ⟨r8.2, slot0, .error ("Failed to emit: " ++ env.emitErrMsg)⟩
                                else
                                  match env.stdoutPipe with
                                  | none => ⟨r8.2, slot0, .error "Failed to capture stdout"⟩
                                  | some soLines =>
                                      match env.stderrPipe with
                                      | none => ⟨r8.2, slot0, .error "Failed to capture stderr"⟩
                                      | some seLines =>
                                          ⟨r8.2, some ⟨none, none⟩, .ok (soLines, seLines)⟩

/-- `stop_python_task` (process.rs lines 479-503), as a function of the
shared slot contents and the `child.kill().await` outcome (`none` means
the kill succeeded, `some e` that it failed with message `e`). Returns the
slot contents afterwards and the command's result. -/
def stop_python_task (slot : Option Child) (killErr : Option String) :
    Option Child × Except String String :=
  match slot with
  | some c =>
      match killErr with
      | none => (none, .ok "Task cancelled successfully")
      | some e =>
          if containsStr e "already exited" || containsStr e "No such process" then
            (none, .ok "Task already completed")
          else
            (some c, .error ("Failed to cancel task: " ++ e))
  | none => (none, .error "No task is currently running")

deriving instance DecidableEq for Except

/-- The control point of the main task of `run_python_task` after the
handle is published: in the wait loop, at one of the two streamer joins,
about to emit `build_complete`, or returned. -/
inductive MainPC where
  | waiting
  | joinStdout (status : ExitStatus)
  | joinStderr (status : ExitStatus) (stdoutLines : List String)
  | emitComplete (status : ExitStatus) (stdoutLines stderrLines : List String)
  | finished (result : Except String CommandResult)
deriving DecidableEq

/-- The state of the concurrent phase: the shared slot, each streamer's
unread and collected lines plus its end-of-stream flag, the remaining
`try_wait` answers, the main task's control point, and the sink state. -/
structure MState where
  slot : Option Child
  soPending : List String
  soDone : Bool
  soLines : List String
  sePending : List String
  seDone : Bool
  seLines : List String
  pollSteps : List PollStep
  main : MainPC
  emits : EmitState
deriving DecidableEq

/-- Which concurrently active activity runs next: the stdout streamer, the
stderr streamer, the main task, or an external cancellation request
(the slot-clearing effect of `stop_python_task`). -/
inductive Choice where
  | so
  | se
  | main
  | cancel
deriving DecidableEq

/-- One scheduled step of the concurrent phase. Streamer steps process one
line (or mark end-of-stream); the main step runs one wait-loop iteration
(process.rs lines 395-428), one streamer join (431-436), or the completion
emit and return (438-477); a cancel step clears an occupied slot. A step
whose activity is blocked (a join whose task has not finished, an empty
poll schedule) leaves the state unchanged. -/
def machStep (env : RunEnv) (config : TaskConfig) (c : Choice) (s : MState) :
    MState :=
  match c with
  | .so =>
      match s.soPending with
      | l :: rest =>
          { s with soPending := rest, soLines := s.soLines ++ [l],
                   emits := processLine env l s.emits }
      | [] => if s.soDone then s else { s with soDone := true }
  | .se =>
      match s.sePending with
      | l :: rest =>
          { s with sePending := rest, seLines := s.seLines ++ [l],
                   emits := processLine env l s.emits }
      | [] => if s.seDone then s else { s with seDone := true }
  | .cancel =>
      match s.slot with
      | some _ => { s with slot := none }
      | none => s
  | .main =>
      match s.main with
      | .waiting =>
          match s.slot with
          | none => { s with main := .finished (.error "Task was cancelled") }
          | some _ =>
              match s.pollSteps with
              | [] => s
              | .exited st :: rest =>
                  { s with slot := none, pollSteps := rest,
                           main := .joinStdout st }
              | .running :: rest => { s with pollSteps := rest }
              | .waitErr msg :: rest =>
                  { s with
                    emits := emitIgnore env
                      (.buildLog ("Failed to check process status: " ++ msg)
                        "error") s.emits,
                    slot := none, pollSteps := rest,
                    main := .finished (.error
                      ("Failed to check process status: " ++ msg)) }
      | .joinStdout st =>
          if s.soDone then
            if env.stdoutJoinOk then
              { s with main := .joinStderr st s.soLines }
            else
              { s with main := .finished (.error
                  ("Failed to read stdout: " ++ env.joinErrMsg)) }
          else s
      | .joinStderr st lso =>
          if s.seDone then
            if env.stderrJoinOk then
              { s with main := .emitComplete st lso s.seLines }
            else
              { s with main := .finished (.error
                  ("Failed to read stderr: " ++ env.joinErrMsg)) }
          else s
      | .emitComplete st lso lse =>
          let ec := completion_exit_code st
          let msg := completion_message st.success config.dry_run ec
          let em := tryEmit env (.buildComplete st.success ec msg) s.emits
          { s with
            emits := em.2,
            main := .finished (if em.1 then
                .ok ⟨String.intercalate "\n" lso, String.intercalate "\n" lse, ec⟩
              else
                .error ("Failed to emit completion: " ++ env.emitErrMsg)) }
      | .finished _ => s

/-- Run the concurrent phase under an explicit interleaving schedule. -/
def machRun (env : RunEnv) (config : TaskConfig) (cs : List Choice)
    (s : MState) : MState :=
  cs.foldl (fun t c => machStep env config c t) s

/-- The machine state right after the pre-spawn phase succeeded: the slot
as published, both streams unread, the main task entering the wait loop. -/
def mkInit (env : RunEnv) (p : PreOut) (so se : List String) : MState :=
  { slot := p.slot
    soPending := so, soDone := false, soLines := []
    sePending := se, seDone := false, seLines := []
    pollSteps := env.pollSteps
    main := .waiting
    emits := p.emits }

@[simp]
theorem tryEmit_spawnCount (env : RunEnv) (e : Event) (s : EmitState) :
    ((tryEmit env e s).2).spawnCount = s.spawnCount := rfl

@[simp]
theorem tryEmit_emitIdx (env : RunEnv) (e : Event) (s : EmitState) :
    ((tryEmit env e s).2).emitIdx = s.emitIdx + 1 := rfl

@[simp]
theorem tryEmit_fst (env : RunEnv) (e : Event) (s : EmitState) :
    (tryEmit env e s).1 = env.emitOk s.emitIdx := rfl

theorem mem_tryEmit_trace (env : RunEnv) (e : Event) (s : EmitState)
    (x : Event) :
    x ∈ ((tryEmit env e s).2).trace ↔
      (env.emitOk s.emitIdx = true ∧ x = e) ∨ x ∈ s.trace := by
  by_cases h : env.emitOk s.emitIdx = true <;>
    simp [tryEmit, h, or_comm]

/-- C5: the claim's first-two-elements property fails as stated because
`build_cli_args` pushes the trimmed skin path, not the raw one: on
`skinPath = " a"` (non-blank) the returned list is `["patch", "a"]`,
which does not begin with `["patch", " a"]`. -/
theorem claim_C5_counterexample :
    build_cli_args ⟨" a", "", false, false⟩ = .ok ["patch", "a"] ∧
      (["patch", "a"].take 2 = ["patch", " a"]) = False := by
  constructor
  · decide
  · decide

/-- C5 (amended: the argument list begins with the trimmed skin path
`S.trim`, not the raw `S`): for every config whose skin path trims
non-empty, `build_cli_args` succeeds and returns exactly
`["patch", S.trim]`, then `["--bundle", B.trim]` when the trimmed bundles
path is non-empty, then `"--debug-export"` iff `debugExport`, then
`"--dry-run"` iff `dryRun`, and nothing else. -/
theorem claim_C5_args_shape (config : TaskConfig)
    (h : rustTrim config.skin_path ≠ "") :
    build_cli_args config = .ok
      (["patch", rustTrim config.skin_path] ++
        (if rustTrim config.bundles_path ≠ "" then
          ["--bundle", rustTrim config.bundles_path] else []) ++
        (if config.debug_export then ["--debug-export"] else []) ++
        (if config.dry_run then ["--dry-run"] else [])) ∧
    (∀ args, build_cli_args config = .ok args →
      args.take 2 = ["patch", rustTrim config.skin_path] ∧
      (rustTrim config.bundles_path ≠ "" →
        args.take 4 = ["patch", rustTrim config.skin_path, "--bundle",
          rustTrim config.bundles_path])) := by
  have hmain : build_cli_args config = .ok
      (["patch", rustTrim config.skin_path] ++
        (if rustTrim config.bundles_path ≠ "" then
          ["--bundle", rustTrim config.bundles_path] else []) ++
        (if config.debug_export then ["--debug-export"] else []) ++
        (if config.dry_run then ["--dry-run"] else [])) := by
    simp [build_cli_args, h]
  refine ⟨hmain, ?_⟩
  intro args hargs
  rw [hmain] at hargs
  obtain rfl : _ = args := by
    cases hargs
    rfl
  constructor
  · by_cases hb : rustTrim config.bundles_path = "" <;> simp [hb]
  · intro hb
    simp [hb]

/-- C5 witness. -/
theorem claim_C5_args_shape_witness :
    build_cli_args ⟨" s ", " b ", true, false⟩ =
      .ok ["patch", "s", "--bundle", "b", "--debug-export"] := by
  have h := (claim_C5_args_shape ⟨" s ", " b ", true, false⟩ (by decide)).1
  simpa using h

/-- C6: a config whose skin path trims to the empty string fails before
any process is spawned: the shared slot (empty at entry) stays empty and
no spawn happens on any environment, and — when the window is found and
the sink delivers — the error returned to the caller is exactly the
configuration error produced by `build_cli_args`. -/
theorem claim_C6_blank_skin_fails_fast (env : RunEnv) (config : TaskConfig)
    (h : rustTrim config.skin_path = "") :
    (runPre env config none).slot = none ∧
    (runPre env config none).emits.spawnCount = 0 ∧
    (env.windowFound = true → (∀ n, env.emitOk n = true) →
      (runPre env config none).outcome =
        .error "Configuration error: Skin folder is required.") := by
  have hb : build_cli_args config = .error "Skin folder is required." := by
    simp [build_cli_args, h]
  by_cases hw : env.windowFound
  · by_cases h0 : env.emitOk 0
    · by_cases h1 : env.emitOk 1
      · refine ⟨?_, ?_, ?_⟩ <;>
          simp [runPre, hw, h0, h1, hb, tryEmit]
      · refine ⟨?_, ?_, ?_⟩ <;>
          simp [runPre, hw, h0, h1, hb, tryEmit]
        intro hall
        exact absurd (hall 1) h1
    · refine ⟨?_, ?_, ?_⟩ <;>
        simp [runPre, hw, h0, hb, tryEmit]
      intro hall
      exact absurd (hall 0) h0
  · refine ⟨?_, ?_, ?_⟩ <;>
      simp [runPre, hw, hb, tryEmit]

/-- C6 witness. -/
theorem claim_C6_blank_skin_fails_fast_witness :
    (runPre
      { windowFound := true, emitOk := fun _ => true, emitErrMsg := "e",
        pythonPath := "p", isWindows := false, debugAssertions := true,
        resolveBackend := .ok "b", backendExists := true,
        cacheDir := .ok "c", cacheDirExists := true,
        createCacheResult := .ok (), spawnErr := none,
        stdoutPipe := some [], stderrPipe := some [], pollSteps := [],
        stdoutJoinOk := true, stderrJoinOk := true, joinErrMsg := "j" }
      ⟨"   ", "", false, false⟩ none).outcome =
      .error "Configuration error: Skin folder is required." :=
  (claim_C6_blank_skin_fails_fast _ ⟨"   ", "", false, false⟩
    (by decide)).2.2 rfl (fun _ => rfl)

/-- C8: the completion report's exit code is the OS code, or `-1` when
none exists; its success flag is the exit status's success flag; the
message is the literal selected by `(success, dryRun)` with the reported
code interpolated; and the machine's completion step emits exactly this
`build_complete` event and returns these fields. -/
theorem claim_C8_completion_report (st : ExitStatus) (dryRun : Bool) :
    (st.code = none → completion_exit_code st = -1) ∧
    (∀ n, st.code = some n → completion_exit_code st = n) ∧
    (st.success = true → dryRun = true →
      completion_message st.success dryRun (completion_exit_code st) =
        "✓ Preview completed successfully. No bundles were modified during this dry run.") ∧
    (st.success = true → dryRun = false →
      completion_message st.success dryRun (completion_exit_code st) =
        "✓ Build completed successfully. All bundles have been created.") ∧
    (st.success = false → dryRun = true →
      completion_message st.success dryRun (completion_exit_code st) =
        "✗ Preview failed with exit code " ++ toString (completion_exit_code st) ++
          ". Check the logs for details.") ∧
    (st.success = false → dryRun = false →
      completion_message st.success dryRun (completion_exit_code st) =
        "✗ Build failed with exit code " ++ toString (completion_exit_code st) ++
          ". Check the logs for details.") ∧
    (∀ env config (s : MState) lso lse, s.main = .emitComplete st lso lse →
      config.dry_run = dryRun →
      ((machStep env config .main s).emits.trace =
        s.emits.trace ++ [Event.buildComplete st.success (completion_exit_code st)
          (completion_message st.success dryRun (completion_exit_code st))] ∨
       (machStep env config .main s).emits.trace = s.emits.trace) ∧
      (∀ res, (machStep env config .main s).main = .finished (.ok res) →
        res.status = completion_exit_code st ∧
        res.stdout = String.intercalate "\n" lso ∧
        res.stderr = String.intercalate "\n" lse)) := by
  refine ⟨?_, ?_, ?_, ?_, ?_, ?_, ?_⟩
  · intro hc
    simp [completion_exit_code, hc]
  · intro n hc
    simp [completion_exit_code, hc]
  · intro hs hd
    simp [completion_message, hs, hd]
  · intro hs hd
    simp [completion_message, hs, hd]
  · intro hs hd
    simp [completion_message, hs, hd]
  · intro hs hd
    simp [completion_message, hs, hd]
  · intro env config s lso lse hmain hdry
    by_cases hok : env.emitOk s.emits.emitIdx
    · constructor
      · left
        simp [machStep, hmain, tryEmit, hok, hdry]
      · intro res hres
        simp only [machStep, hmain, tryEmit, hok, if_pos, hdry] at hres
        cases hres with
        | refl => exact ⟨rfl, rfl, rfl⟩
    · constructor
      · right
        simp [machStep, hmain, tryEmit, hok]
      · intro res hres
        simp [machStep, hmain, tryEmit, hok] at hres

/-- C8 witness. -/
theorem claim_C8_completion_report_witness :
    completion_message true true (completion_exit_code ⟨some 0, true⟩) =
      "✓ Preview completed successfully. No bundles were modified during this dry run." :=
  (claim_C8_completion_report ⟨some 0, true⟩ true).2.2.1 rfl rfl

/-- C10: `stop_python_task` mutates the slot only on success outcomes —
`Ok` leaves the slot empty; the `Failed to cancel task` error leaves the
slot exactly as it was; the `No task is currently running` error occurs
exactly when the slot was already empty, and leaves it empty. -/
theorem claim_C10_stop_slot_discipline (slot : Option Child)
    (killErr : Option String) :
    (∀ r, (stop_python_task slot killErr).2 = .ok r →
      (stop_python_task slot killErr).1 = none) ∧
    (∀ m, (stop_python_task slot killErr).2 = .error m →
      m ≠ "No task is currently running" →
      (stop_python_task slot killErr).1 = slot) ∧
    (slot = none →
      stop_python_task slot killErr =
        (none, .error "No task is currently running")) := by
  match slot, killErr with
  | none, _ =>
      refine ⟨?_, ?_, ?_⟩
      · intro r hr
        simp [stop_python_task] at hr
      · intro m hm hne
        simp [stop_python_task] at hm
        exact absurd hm.symm hne
      · intro _
        rfl
  | some c, none =>
      refine ⟨?_, ?_, ?_⟩
      · intro r _
        rfl
      · intro m hm _
        simp [stop_python_task] at hm
      · intro hc
        cases hc
  | some c, some e =>
      by_cases hc : containsStr e "already exited" ||
        containsStr e "No such process"
      · refine ⟨?_, ?_, ?_⟩
        · intro r _
          simp [stop_python_task, hc]
        · intro m hm _
          simp [stop_python_task, hc] at hm
        · intro h
          cases h
      · refine ⟨?_, ?_, ?_⟩
        · intro r hr
          simp [stop_python_task, hc] at hr
        · intro m _ _
          simp [stop_python_task, hc]
        · intro h
          cases h

/-- C10 witness. -/
theorem claim_C10_stop_slot_discipline_witness :
    (stop_python_task (some ⟨none, none⟩) (some "permission denied")).1 =
      some ⟨none, none⟩ :=
  (claim_C10_stop_slot_discipline (some ⟨none, none⟩)
    (some "permission denied")).2.1
    "Failed to cancel task: permission denied" rfl (by decide)

/-- A concrete environment for the cancellation-race scenario: the worker
emits nothing and exits naturally with code 0 on the first poll. -/
def raceEnv : RunEnv :=
  { windowFound := true, emitOk := fun _ => true, emitErrMsg := "e",
    pythonPath := "p", isWindows := false, debugAssertions := true,
    resolveBackend := .ok "b", backendExists := true,
    cacheDir := .ok "c", cacheDirExists := true,
    createCacheResult := .ok (), spawnErr := none,
    stdoutPipe := some [], stderrPipe := some [],
    pollSteps := [.exited ⟨some 0, true⟩],
    stdoutJoinOk := true, stderrJoinOk := true, joinErrMsg := "j" }

/-- A concrete valid task configuration. -/
def raceCfg : TaskConfig := ⟨"skin", "", false, false⟩

/-- C2 counterexample: the claim fails on the path where the natural exit
has already been observed by the wait loop. In a real run (spawned via
`runPre`, worker exits naturally, one wait-loop iteration observes the
exit and clears the slot), a subsequent `stop_python_task` returns the
`No task is currently running` error — not `AlreadyCompleted`. -/
theorem claim_C2_counterexample :
    (machRun raceEnv raceCfg [Choice.main]
      (mkInit raceEnv (runPre raceEnv raceCfg none) [] [])).slot = none ∧
    stop_python_task
      (machRun raceEnv raceCfg [Choice.main]
        (mkInit raceEnv (runPre raceEnv raceCfg none) [] [])).slot none =
      (none, .error "No task is currently running") := by
  constructor
  · decide
  · decide

/-- C2 (amended: `AlreadyCompleted` is returned only when the handle is
still in the slot and the kill fails with an already-exited condition;
when the wait loop has already observed the natural exit and cleared the
slot, the call instead returns the `No task is currently running` error):
for any handle and any kill error mentioning `already exited` or
`No such process`, the outcome is `Ok "Task already completed"` and never
an error; with an empty slot the outcome is the `NotRunning` error. -/
theorem claim_C2_cancel_after_exit (c : Child) (e : String)
    (h : containsStr e "already exited" = true ∨
      containsStr e "No such process" = true) :
    stop_python_task (some c) (some e) = (none, .ok "Task already completed") ∧
    (∀ killErr, stop_python_task none killErr =
      (none, .error "No task is currently running")) := by
  constructor
  · have hb : (containsStr e "already exited" ||
        containsStr e "No such process") = true := by
      rcases h with h | h <;> simp [h]
    simp [stop_python_task, hb]
  · intro killErr
    rfl

/-- C2 witness. -/
theorem claim_C2_cancel_after_exit_witness :
    stop_python_task (some ⟨none, none⟩)
      (some "os error: process already exited") =
      (none, .ok "Task already completed") :=
  (claim_C2_cancel_after_exit ⟨none, none⟩ "os error: process already exited"
    (Or.inl (by decide))).1

theorem streamTask_collects (env : RunEnv) :
    ∀ (lines : List String) (es : EmitState) (acc : List String),
      (streamTask env lines es acc).2 = acc ++ lines := by
  intro lines
  induction lines with
  | nil =>
      intro es acc
      simp [streamTask]
  | cons l rest ih =>
      intro es acc
      simp [streamTask, ih]

/-- An environment whose sink fails exactly on the second emit attempt
(the `Validating configuration...` `build_log`). -/
def dropSecondEmitEnv : RunEnv :=
  { windowFound := true, emitOk := fun n => decide (n ≠ 1),
    emitErrMsg := "boom", pythonPath := "p", isWindows := false,
    debugAssertions := true, resolveBackend := .ok "b",
    backendExists := true, cacheDir := .ok "c", cacheDirExists := true,
    createCacheResult := .ok (), spawnErr := none,
    stdoutPipe := some [], stderrPipe := some [], pollSteps := [],
    stdoutJoinOk := true, stderrJoinOk := true, joinErrMsg := "j" }

/-- C3 counterexample: a failed `build_log` delivery can abort the run.
When the sink refuses the setup-phase `Validating configuration...`
`build_log` event, `run_python_task` returns an error instead of
continuing — contradicting the claim that only `task_started` and
`build_complete` delivery failures abort. -/
theorem claim_C3_counterexample :
    (runPre dropSecondEmitEnv raceCfg none).outcome =
      .error "Failed to emit build_log: boom" := by
  decide

/-- C3 (amended: the per-line `build_log`/`build_progress` events emitted
by the two output streamers are best-effort — a failed emit is dropped
silently, the streamer continues and still collects every line, and
streamer steps never change the main task's control point or the shared
slot; failures delivering the milestones `task_started` and
`build_complete` abort the run; but the setup-phase `build_log` status
emits before the spawn also abort the run on failure). -/
theorem claim_C3_emit_failure_policy :
    (∀ (env : RunEnv) (lines : List String) (es : EmitState),
      (streamTask env lines es []).2 = lines) ∧
    (∀ (env : RunEnv) (config : TaskConfig) (s : MState),
      ((machStep env config .so s).main = s.main ∧
        (machStep env config .so s).slot = s.slot) ∧
      ((machStep env config .se s).main = s.main ∧
        (machStep env config .se s).slot = s.slot)) ∧
    (∀ (env : RunEnv) (config : TaskConfig) (s : MState) st lso lse,
      s.main = .emitComplete st lso lse →
      env.emitOk s.emits.emitIdx = false →
      (machStep env config .main s).main =
        .finished (.error ("Failed to emit completion: " ++ env.emitErrMsg))) ∧
    (∀ (env : RunEnv) (config : TaskConfig) (slot0 : Option Child),
      env.windowFound = true → env.emitOk 0 = false →
      (runPre env config slot0).outcome =
        .error ("Failed to emit task_started: " ++ env.emitErrMsg)) ∧
    (∀ (env : RunEnv) (config : TaskConfig) (slot0 : Option Child),
      env.windowFound = true → env.emitOk 0 = true → env.emitOk 1 = false →
      (runPre env config slot0).outcome =
        .error ("Failed to emit build_log: " ++ env.emitErrMsg)) := by
  refine ⟨?_, ?_, ?_, ?_, ?_⟩
  · intro env lines es
    simpa using streamTask_collects env lines es []
  · intro env config s
    constructor
    · cases hp : s.soPending with
      | nil =>
          by_cases hd : s.soDone <;> simp [machStep, hp, hd]
      | cons l rest =>
          simp [machStep, hp]
    · cases hp : s.sePending with
      | nil =>
          by_cases hd : s.seDone <;> simp [machStep, hp, hd]
      | cons l rest =>
          simp [machStep, hp]
  · intro env config s st lso lse hmain hfail
    simp [machStep, hmain, tryEmit, hfail]
  · intro env config slot0 hw h0
    simp [runPre, hw, tryEmit, h0]
  · intro env config slot0 hw h0 h1
    simp [runPre, hw, tryEmit, h0, h1]

/-- C3 witness. -/
theorem claim_C3_emit_failure_policy_witness :
    (streamTask dropSecondEmitEnv ["a", "b"]
      { trace := [], emitIdx := 0, spawnCount := 0 } []).2 = ["a", "b"] ∧
    (machStep dropSecondEmitEnv raceCfg .main
      { slot := none, soPending := [], soDone := true, soLines := [],
        sePending := [], seDone := true, seLines := [], pollSteps := [],
        main := .emitComplete ⟨some 0, true⟩ [] [],
        emits := { trace := [], emitIdx := 1, spawnCount := 1 } }).main =
      .finished (.error "Failed to emit completion: boom") :=
  ⟨claim_C3_emit_failure_policy.1 dropSecondEmitEnv ["a", "b"]
    { trace := [], emitIdx := 0, spawnCount := 0 },
   claim_C3_emit_failure_policy.2.2.1 dropSecondEmitEnv raceCfg _
    ⟨some 0, true⟩ [] [] rfl (by decide)⟩

/-- The spec's marker rule, written from the spec's words as a first-match
scan over token suffixes: find the token `"bundle"` immediately followed
two tokens later by `"of"`, parse the token after `"bundle"` as `current`
and the token after `"of"` (trailing colon stripped) as `total`; the
status is `"Processing bundle"` concatenated with the remaining tokens,
or just `"Processing bundle"` when none remain. -/
def bundleScanSpec : List String → Option (Nat × Nat × String)
  | b :: cur :: o :: tot :: rest =>
      if b = "bundle" ∧ o = "of" then
        match parseU32 cur, parseU32 (trimEndMatchesColon tot) with
        | some c, some t =>
            some (c, t,
              if rest.isEmpty then "Processing bundle"
              else "Processing bundle " ++ String.intercalate " " rest)
        | _, _ => bundleScanSpec (cur :: o :: tot :: rest)
      else bundleScanSpec (cur :: o :: tot :: rest)
  | _ => none

/-- The spec's generic rule: scan the whitespace tokens for a triple
`N "of" M` with both numbers parsing as unsigned integers; the status is
the trimmed text before the first `"==="` (or the whole trimmed line). -/
def genericScanSpec (line : String) : List String → Option (Nat × Nat × String)
  | n :: o :: m :: rest =>
      if o = "of" then
        match parseU32 n, parseU32 m with
        | some c, some t => some (c, t, rustTrim (splitFirst line "==="))
        | _, _ => genericScanSpec line (o :: m :: rest)
      else genericScanSpec line (o :: m :: rest)
  | _ => none

/-- The spec's Progress Parser: a small ordered list of pattern rules,
evaluated in priority order, first match wins, `none` when no rule
matches. -/
def parse_progress_spec (line : String) : Option (Nat × Nat × String) :=
  List.findSome? id
    [ if containsStr line "=== Processing bundle" then
        bundleScanSpec (splitWhitespace line)
      else none,
      if containsStr line " of " then
        genericScanSpec line (splitWhitespace line)
      else none ]

theorem findSome?_range_succ {β : Type} (n : Nat) (f : Nat → Option β) :
    (List.range (n + 1)).findSome? f =
      match f 0 with
      | some r => some r
      | none => (List.range n).findSome? fun i => f (i + 1) := by
  rw [List.range_succ_eq_map, List.findSome?_cons]
  cases h : f 0 with
  | none => simp [List.findSome?_map]; rfl
  | some r => rfl

theorem pat1At_cons_succ (a : String) (t : List String) (i : Nat) :
    pat1At (a :: t) (i + 1) = pat1At t i := by
  have e1 : i + 1 + 2 = (i + 2) + 1 := by omega
  have e2 : i + 1 + 3 = (i + 3) + 1 := by omega
  have e3 : i + 1 + 4 = (i + 4) + 1 := by omega
  simp only [pat1At, e1, e2, e3, List.getD_cons_succ, List.drop_succ_cons,
    List.length_cons, Nat.succ_lt_succ_iff]

theorem pat2At_cons_succ (line a : String) (t : List String) (i : Nat) :
    pat2At line (a :: t) (i + 1) = pat2At line t i := by
  have e1 : i + 1 + 1 = (i + 1) + 1 := rfl
  have e2 : i + 1 + 2 = (i + 2) + 1 := by omega
  simp only [pat2At, e1, e2, List.getD_cons_succ]

theorem range_findSome_pat1 (parts : List String) :
    (List.range (parts.length - 3)).findSome? (pat1At parts) =
      bundleScanSpec parts := by
  induction parts with
  | nil => rfl
  | cons a t ih =>
      rcases t with _ | ⟨cur, t2⟩
      · rfl
      rcases t2 with _ | ⟨o, t3⟩
      · rfl
      rcases t3 with _ | ⟨tot, rest⟩
      · rfl
      have hlen : (a :: cur :: o :: tot :: rest).length - 3 = rest.length + 1 := by
        simp only [List.length_cons]
        omega
      rw [hlen, findSome?_range_succ]
      simp only [pat1At_cons_succ]
      have heta : (fun i => pat1At (cur :: o :: tot :: rest) i) =
          pat1At (cur :: o :: tot :: rest) := rfl
      rw [heta]
      have hlen2 : rest.length = (cur :: o :: tot :: rest).length - 3 := by
        simp only [List.length_cons]
        omega
      rw [hlen2, ih]
      have g0 : (a :: cur :: o :: tot :: rest).getD 0 "" = a := rfl
      have g1 : (a :: cur :: o :: tot :: rest).getD (0 + 1) "" = cur := rfl
      have g2 : (a :: cur :: o :: tot :: rest).getD (0 + 2) "" = o := rfl
      have g3 : (a :: cur :: o :: tot :: rest).getD (0 + 3) "" = tot := rfl
      by_cases hcond : a = "bundle" ∧ o = "of"
      · obtain ⟨ha, ho⟩ := hcond
        subst ha
        subst ho
        simp only [pat1At, g0, g1, g2, g3, if_pos (And.intro rfl rfl)]
        cases hcur : parseU32 cur with
        | none =>
            simp [bundleScanSpec, hcur]
        | some c =>
            cases htot : parseU32 (trimEndMatchesColon tot) with
            | none => simp [bundleScanSpec, hcur, htot]
            | some t =>
                have hdrop : (("bundle" : String) :: cur :: "of" :: tot :: rest).drop (0 + 4) =
                    rest := rfl
                rcases rest with _ | ⟨r, rs⟩
                · simp [bundleScanSpec, hcur, htot, hdrop]
                · simp [bundleScanSpec, hcur, htot, hdrop, List.length_cons]
      · have hpat : pat1At (a :: cur :: o :: tot :: rest) 0 = none := by
          simp only [pat1At, g0, g2]
          rw [if_neg hcond]
        rw [hpat]
        have : bundleScanSpec (a :: cur :: o :: tot :: rest) =
            bundleScanSpec (cur :: o :: tot :: rest) := by
          simp only [bundleScanSpec]
          rw [if_neg hcond]
        rw [this]

theorem range_findSome_pat2 (line : String) (words : List String) :
    (List.range (words.length - 2)).findSome? (pat2At line words) =
      genericScanSpec line words := by
  induction words with
  | nil => rfl
  | cons a t ih =>
      rcases t with _ | ⟨o, t2⟩
      · rfl
      rcases t2 with _ | ⟨m, rest⟩
      · rfl
      have hlen : (a :: o :: m :: rest).length - 2 = rest.length + 1 := by
        simp only [List.length_cons]
        omega
      rw [hlen, findSome?_range_succ]
      simp only [pat2At_cons_succ]
      have heta : (fun i => pat2At line (o :: m :: rest) i) =
          pat2At line (o :: m :: rest) := rfl
      rw [heta]
      have hlen2 : rest.length = (o :: m :: rest).length - 2 := by
        simp only [List.length_cons]
        omega
      rw [hlen2, ih]
      have g0 : (a :: o :: m :: rest).getD 0 "" = a := rfl
      have g1 : (a :: o :: m :: rest).getD (0 + 1) "" = o := rfl
      have g2 : (a :: o :: m :: rest).getD (0 + 2) "" = m := rfl
      by_cases ho : o = "of"
      · subst ho
        simp only [pat2At, g0, g1, g2, if_pos rfl]
        cases ha : parseU32 a with
        | none => simp [genericScanSpec, ha]
        | some c =>
            cases hm : parseU32 m with
            | none => simp [genericScanSpec, ha, hm]
            | some t => simp [genericScanSpec, ha, hm]
      · have hpat : pat2At line (a :: o :: m :: rest) 0 = none := by
          simp only [pat2At, g1]
          rw [if_neg ho]
        rw [hpat]
        simp [genericScanSpec, ho]

/-- C7: `parse_progress` is exactly the spec's two ordered pattern rules
with first match winning (the marker rule, then the generic `N of M`
rule, `none` when neither matches), and it returns the claim's stated
values on the two example lines. -/
theorem claim_C7_progress_rules :
    (∀ line, parse_progress line = parse_progress_spec line) ∧
    parse_progress "=== Processing bundle 3 of 10: foo" =
      some (3, 10, "Processing bundle foo") ∧
    parse_progress "nothing relevant" = none := by
  refine ⟨?_, by decide, by decide⟩
  intro line
  simp only [parse_progress, parse_progress_spec, range_findSome_pat1,
    range_findSome_pat2]
  cases hA : (if containsStr line "=== Processing bundle" then
      bundleScanSpec (splitWhitespace line) else none) with
  | some r => simp [List.findSome?_cons, hA]
  | none =>
      cases hB : (if containsStr line " of " then
          genericScanSpec line (splitWhitespace line) else none) with
      | some r => simp [List.findSome?_cons, hA, hB]
      | none => simp [List.findSome?_cons, hA, hB]

set_option maxHeartbeats 2000000 in
theorem runPre_props (env : RunEnv) (config : TaskConfig) (slot0 : Option Child) :
    (∀ b ec m, Event.buildComplete b ec m ∉ (runPre env config slot0).emits.trace) ∧
    (∀ so se, (runPre env config slot0).outcome = .ok (so, se) →
      (runPre env config slot0).slot = some ⟨none, none⟩) ∧
    (∀ e, (runPre env config slot0).outcome = .error e →
      (runPre env config slot0).slot = slot0) := by
  by_cases hW : env.windowFound = false
  · simp_all [runPre, tryEmit]
  · by_cases h0 : env.emitOk 0 = false
    · simp_all [runPre, tryEmit]
    · by_cases h1 : env.emitOk 1 = false
      · simp_all [runPre, tryEmit]
      · cases hbc : build_cli_args config with
        | error e =>
            by_cases h2 : env.emitOk 2 = true <;> simp_all [runPre, tryEmit]
        | ok cliArgs =>
            by_cases h2 : env.emitOk 2 = false
            · simp_all [runPre, tryEmit]
            · by_cases h3 : env.emitOk 3 = false
              · simp_all [runPre, tryEmit]
              · cases hrc : resolveCommand env with
                | error e => simp_all [runPre, tryEmit]
                | ok u =>
                    cases hcd : cacheDirSetup env with
                    | error e => simp_all [runPre, tryEmit]
                    | ok d =>
                        by_cases h4 : env.emitOk 4 = false
                        · simp_all [runPre, tryEmit]
                        · by_cases h5 : env.emitOk 5 = false
                          · simp_all [runPre, tryEmit]
                          · cases hsp : env.spawnErr with
                            | some e => simp_all [runPre, tryEmit]
                            | none =>
                                by_cases h6 : env.emitOk 6 = false
                                · simp_all [runPre, tryEmit]
                                · cases hso : env.stdoutPipe with
                                  | none => simp_all [runPre, tryEmit]
                                  | some soL =>
                                      cases hse : env.stderrPipe with
                                      | none => simp_all [runPre, tryEmit]
                                      | some seL => simp_all [runPre, tryEmit]

theorem mem_processLine_trace (env : RunEnv) (l : String) (es : EmitState)
    (x : Event) (hx : x ∈ (processLine env l es).trace) :
    x ∈ es.trace ∨ (∃ c t st, x = .buildProgress c t st) ∨
      (∃ m lv, x = .buildLog m lv) := by
  unfold processLine emitIgnore at hx
  rcases (mem_tryEmit_trace _ _ _ _).1 hx with ⟨_, rfl⟩ | hx
  · exact Or.inr (Or.inr ⟨_, _, rfl⟩)
  · cases hp : parse_progress l with
    | none =>
        simp only [hp] at hx
        exact Or.inl hx
    | some r =>
        simp only [hp] at hx
        by_cases ht : r.2.1 > 0
        · rw [if_pos ht] at hx
          rcases (mem_tryEmit_trace _ _ _ _).1 hx with ⟨_, rfl⟩ | hx
          · exact Or.inr (Or.inl ⟨_, _, _, rfl⟩)
          · exact Or.inl hx
        · rw [if_neg ht] at hx
          exact Or.inl hx

/-- The run invariant of the concurrent phase, for a worker whose full
stdout is `so` and full stderr is `se`: collected and unread lines
partition each stream; an end-of-stream flag means the stream is fully
read; each control point past a join knows that join's task finished and
carries its collected lines; a successful return carries the newline-joins
of the full streams; a `build_complete` event can only be in the trace
once both streams are drained in full; once the wait loop has been left
the slot is empty; and any occupant of the slot has both pipes taken. -/
structure Inv (so se : List String) (s : MState) : Prop where
  so_split : s.soLines ++ s.soPending = so
  se_split : s.seLines ++ s.sePending = se
  so_eos : s.soDone = true → s.soPending = []
  se_eos : s.seDone = true → s.sePending = []
  at_join_se : ∀ st lines, s.main = .joinStderr st lines →
    s.soDone = true ∧ lines = s.soLines
  at_complete : ∀ st lso lse, s.main = .emitComplete st lso lse →
    s.soDone = true ∧ s.seDone = true ∧ lso = s.soLines ∧ lse = s.seLines
  fin_ok : ∀ res, s.main = .finished (.ok res) →
    s.soDone = true ∧ s.seDone = true ∧
    res.stdout = String.intercalate "\n" so ∧
    res.stderr = String.intercalate "\n" se
  complete_drained : ∀ b ec m, Event.buildComplete b ec m ∈ s.emits.trace →
    s.soDone = true ∧ s.seDone = true ∧ s.soLines = so ∧ s.seLines = se
  slot_after : s.main ≠ .waiting → s.slot = none
  slot_gutted : ∀ c, s.slot = some c → c = Child.mk none none

theorem machStep_inv (env : RunEnv) (config : TaskConfig)
    (so se : List String) (c : Choice) (s : MState) (h : Inv so se s) :
    Inv so se (machStep env config c s) := by
  obtain ⟨slot, soP, soD, soL, seP, seD, seL, polls, mn, ems⟩ := s
  obtain ⟨h1, h2, h3, h4, h5, h6, h7, h8, h9, h10⟩ := h
  cases c with
  | so =>
      cases soP with
      | nil =>
          cases soD with
          | true => exact ⟨h1, h2, h3, h4, h5, h6, h7, h8, h9, h10⟩
          | false =>
              simp only [machStep]
              exact ⟨h1, h2, fun _ => rfl, h4,
                fun st lines hm => ⟨rfl, (h5 st lines hm).2⟩,
                fun st lso lse hm => ⟨rfl, (h6 st lso lse hm).2⟩,
                fun res hr => ⟨rfl, (h7 res hr).2⟩,
                fun b ec m hx => ⟨rfl, (h8 b ec m hx).2⟩,
                h9, h10⟩
      | cons l rest =>
          cases soD with
          | true => cases h3 rfl
          | false =>
              simp only [machStep]
              refine ⟨?_, h2, ?_, h4, ?_, ?_, ?_, ?_, h9, h10⟩
              · rw [List.append_assoc]
                exact h1
              · intro hf
                cases hf
              · intro st lines hm
                cases (h5 st lines hm).1
              · intro st lso lse hm
                cases (h6 st lso lse hm).1
              · intro res hr
                cases (h7 res hr).1
              · intro b ec m hx
                rcases mem_processLine_trace env l ems _ hx with
                  hold | ⟨c1, t1, st1, heq⟩ | ⟨m1, lv1, heq⟩
                · cases (h8 b ec m hold).1
                · cases heq
                · cases heq
  | se =>
      cases seP with
      | nil =>
          cases seD with
          | true => exact ⟨h1, h2, h3, h4, h5, h6, h7, h8, h9, h10⟩
          | false =>
              simp only [machStep]
              exact ⟨h1, h2, h3, fun _ => rfl,
                fun st lines hm => h5 st lines hm,
                fun st lso lse hm =>
                  ⟨(h6 st lso lse hm).1, rfl, (h6 st lso lse hm).2.2⟩,
                fun res hr => ⟨(h7 res hr).1, rfl, (h7 res hr).2.2⟩,
                fun b ec m hx => ⟨(h8 b ec m hx).1, rfl, (h8 b ec m hx).2.2⟩,
                h9, h10⟩
      | cons l rest =>
          cases seD with
          | true => cases h4 rfl
          | false =>
              simp only [machStep]
              refine ⟨h1, ?_, h3, ?_, fun st lines hm => h5 st lines hm,
                ?_, ?_, ?_, h9, h10⟩
              · rw [List.append_assoc]
                exact h2
              · intro hf
                cases hf
              · intro st lso lse hm
                cases (h6 st lso lse hm).2.1
              · intro res hr
                cases (h7 res hr).2.1
              · intro b ec m hx
                rcases mem_processLine_trace env l ems _ hx with
                  hold | ⟨c1, t1, st1, heq⟩ | ⟨m1, lv1, heq⟩
                · cases (h8 b ec m hold).2.1
                · cases heq
                · cases heq
  | cancel =>
      cases slot with
      | none => exact ⟨h1, h2, h3, h4, h5, h6, h7, h8, h9, h10⟩
      | some c0 =>
          simp only [machStep]
          exact ⟨h1, h2, h3, h4, h5, h6, h7, h8, fun _ => rfl,
            fun c1 hc => Option.noConfusion hc⟩
  | main =>
      cases mn with
      | waiting =>
          cases slot with
          | none =>
              simp only [machStep]
              refine ⟨h1, h2, h3, h4, ?_, ?_, ?_, h8, fun _ => rfl,
                fun c1 hc => Option.noConfusion hc⟩
              · intro st lines hm
                exact MainPC.noConfusion hm
              · intro st lso lse hm
                exact MainPC.noConfusion hm
              · intro res hr
                simp at hr
          | some c0 =>
              cases polls with
              | nil => exact ⟨h1, h2, h3, h4, h5, h6, h7, h8, h9, h10⟩
              | cons p rest =>
                  cases p with
                  | exited st =>
                      simp only [machStep]
                      refine ⟨h1, h2, h3, h4, ?_, ?_, ?_, h8, fun _ => rfl,
                        fun c1 hc => Option.noConfusion hc⟩
                      · intro st1 lines hm
                        exact MainPC.noConfusion hm
                      · intro st1 lso lse hm
                        exact MainPC.noConfusion hm
                      · intro res hr
                        exact MainPC.noConfusion hr
                  | running =>
                      simp only [machStep]
                      exact ⟨h1, h2, h3, h4, h5, h6, h7, h8,
                        fun hw => absurd rfl hw, h10⟩
                  | waitErr msg =>
                      simp only [machStep]
                      refine ⟨h1, h2, h3, h4, ?_, ?_, ?_, ?_, fun _ => rfl,
                        fun c1 hc => Option.noConfusion hc⟩
                      · intro st1 lines hm
                        exact MainPC.noConfusion hm
                      · intro st1 lso lse hm
                        exact MainPC.noConfusion hm
                      · intro res hr
                        simp at hr
                      · intro b ec m hx
                        unfold emitIgnore at hx
                        rcases (mem_tryEmit_trace _ _ _ _).1 hx with
                          ⟨_, heq⟩ | hold
                        · exact Event.noConfusion heq
                        · exact h8 b ec m hold
      | joinStdout st =>
          have hslot : slot = none := h9 (fun hw => MainPC.noConfusion hw)
          cases soD with
          | false => exact ⟨h1, h2, h3, h4, h5, h6, h7, h8, h9, h10⟩
          | true =>
              cases hjo : env.stdoutJoinOk with
              | true =>
                  simp only [machStep, hjo]
                  refine ⟨h1, h2, h3, h4, ?_, ?_, ?_, h8,
                    fun _ => hslot, h10⟩
                  · intro st1 lines hm
                    injection hm with ha hb
                    exact ⟨rfl, hb.symm⟩
                  · intro st1 lso lse hm
                    exact MainPC.noConfusion hm
                  · intro res hr
                    exact MainPC.noConfusion hr
              | false =>
                  simp only [machStep, hjo]
                  refine ⟨h1, h2, h3, h4, ?_, ?_, ?_, h8,
                    fun _ => hslot, h10⟩
                  · intro st1 lines hm
                    exact MainPC.noConfusion hm
                  · intro st1 lso lse hm
                    exact MainPC.noConfusion hm
                  · intro res hr
                    simp at hr
      | joinStderr st lso =>
          have hslot : slot = none := h9 (fun hw => MainPC.noConfusion hw)
          have hj := h5 st lso rfl
          cases seD with
          | false => exact ⟨h1, h2, h3, h4, h5, h6, h7, h8, h9, h10⟩
          | true =>
              cases hjo : env.stderrJoinOk with
              | true =>
                  simp only [machStep, hjo]
                  refine ⟨h1, h2, h3, h4, ?_, ?_, ?_, h8,
                    fun _ => hslot, h10⟩
                  · intro st1 lines hm
                    exact MainPC.noConfusion hm
                  · intro st1 lso1 lse1 hm
                    injection hm with ha hb hc
                    exact ⟨hj.1, rfl, hb.symm.trans hj.2, hc.symm⟩
                  · intro res hr
                    exact MainPC.noConfusion hr
              | false =>
                  simp only [machStep, hjo]
                  refine ⟨h1, h2, h3, h4, ?_, ?_, ?_, h8,
                    fun _ => hslot, h10⟩
                  · intro st1 lines hm
                    exact MainPC.noConfusion hm
                  · intro st1 lso1 lse1 hm
                    exact MainPC.noConfusion hm
                  · intro res hr
                    simp at hr
      | emitComplete st lso lse =>
          have hslot : slot = none := h9 (fun hw => MainPC.noConfusion hw)
          obtain ⟨hsoD, hseD, hlso, hlse⟩ := h6 st lso lse rfl
          have hsoFull : soL = so := by
            have h1x := h1
            rw [h3 hsoD] at h1x
            simpa using h1x
          have hseFull : seL = se := by
            have h2x := h2
            rw [h4 hseD] at h2x
            simpa using h2x
          simp only [machStep]
          refine ⟨h1, h2, h3, h4, ?_, ?_, ?_, ?_, fun _ => hslot, h10⟩
          · intro st1 lines hm
            exact MainPC.noConfusion hm
          · intro st1 lso1 lse1 hm
            exact MainPC.noConfusion hm
          · intro res hr
            by_cases hok : env.emitOk ems.emitIdx
            · rw [tryEmit_fst, if_pos hok] at hr
              injection hr with hr2
              injection hr2 with hr3
              subst hr3
              exact ⟨hsoD, hseD, by rw [hlso, hsoFull], by rw [hlse, hseFull]⟩
            · rw [tryEmit_fst, if_neg hok] at hr
              injection hr with hr2
              exact Except.noConfusion hr2
          · intro b ec m hx
            rcases (mem_tryEmit_trace _ _ _ _).1 hx with ⟨_, heq⟩ | hold
            · exact ⟨hsoD, hseD, hsoFull, hseFull⟩
            · exact h8 b ec m hold
      | finished r => exact ⟨h1, h2, h3, h4, h5, h6, h7, h8, h9, h10⟩

theorem machRun_inv (env : RunEnv) (config : TaskConfig)
    (so se : List String) (cs : List Choice) (s : MState) (h : Inv so se s) :
    Inv so se (machRun env config cs s) := by
  induction cs generalizing s with
  | nil => simpa [machRun] using h
  | cons c rest ih =>
      have hstep := machStep_inv env config so se c s h
      simpa [machRun, List.foldl_cons] using ih _ hstep

theorem mkInit_inv (env : RunEnv) (config : TaskConfig) (p : PreOut)
    (so se : List String) (hpre : runPre env config none = p)
    (hok : p.outcome = .ok (so, se)) :
    Inv so se (mkInit env p so se) := by
  have hprops := runPre_props env config none
  have hslot : p.slot = some ⟨none, none⟩ := by
    rw [← hpre]
    exact hprops.2.1 so se (by rw [hpre]; exact hok)
  refine ⟨by simp [mkInit], by simp [mkInit], ?_, ?_, ?_, ?_, ?_, ?_, ?_, ?_⟩
  · intro hd
    cases hd
  · intro hd
    cases hd
  · intro st lines hm
    cases hm
  · intro st lso lse hm
    cases hm
  · intro res hr
    cases hr
  · intro b ec m hx
    have : Event.buildComplete b ec m ∈ (runPre env config none).emits.trace := by
      rw [hpre]
      simpa [mkInit] using hx
    exact absurd this (hprops.1 b ec m)
  · intro hm
    exact absurd rfl hm
  · intro c hc
    simp only [mkInit] at hc
    rw [hslot] at hc
    cases hc
    rfl

/-- C1: in every run (any environment, any interleaving schedule), a
`build_complete` event is in the sink trace only when both streams have
reached end-of-stream with every line collected, and a successful return
value carries exactly the newline-join of the worker's full stdout and
stderr streams — the report is never produced before both streamer tasks
are drained and joined. -/
theorem claim_C1_drain_before_report (env : RunEnv) (config : TaskConfig)
    (p : PreOut) (so se : List String) (cs : List Choice)
    (hpre : runPre env config none = p) (hok : p.outcome = .ok (so, se)) :
    (∀ b ec m, Event.buildComplete b ec m ∈
        (machRun env config cs (mkInit env p so se)).emits.trace →
      (machRun env config cs (mkInit env p so se)).soDone = true ∧
      (machRun env config cs (mkInit env p so se)).seDone = true ∧
      (machRun env config cs (mkInit env p so se)).soLines = so ∧
      (machRun env config cs (mkInit env p so se)).seLines = se) ∧
    (∀ res, (machRun env config cs (mkInit env p so se)).main =
        .finished (.ok res) →
      res.stdout = String.intercalate "\n" so ∧
      res.stderr = String.intercalate "\n" se) := by
  have hinv := machRun_inv env config so se cs _
    (mkInit_inv env config p so se hpre hok)
  exact ⟨hinv.complete_drained, fun res hr => (hinv.fin_ok res hr).2.2⟩

/-- The environment of a run whose worker writes exactly one stdout line
and exits with code 0. -/
def oneLineEnv : RunEnv :=
  { windowFound := true, emitOk := fun _ => true, emitErrMsg := "e",
    pythonPath := "p", isWindows := false, debugAssertions := true,
    resolveBackend := .ok "b", backendExists := true,
    cacheDir := .ok "c", cacheDirExists := true,
    createCacheResult := .ok (), spawnErr := none,
    stdoutPipe := some ["hello"], stderrPipe := some [],
    pollSteps := [.exited ⟨some 0, true⟩],
    stdoutJoinOk := true, stderrJoinOk := true, joinErrMsg := "j" }

/-- C1 witness. -/
theorem claim_C1_drain_before_report_witness :
    CommandResult.stdout ⟨"hello", "", 0⟩ =
      String.intercalate "\n" ["hello"] ∧
    CommandResult.stderr ⟨"hello", "", 0⟩ = String.intercalate "\n" [] :=
  (claim_C1_drain_before_report oneLineEnv raceCfg
    (runPre oneLineEnv raceCfg none) ["hello"] []
    [.so, .so, .se, .main, .main, .main, .main] rfl (by decide)).2
    ⟨"hello", "", 0⟩ (by decide)

/-- C4: whenever the shared slot holds a child handle — right after the
pre-spawn phase published it, and at every point of every schedule of the
concurrent phase — both of that handle's pipes have already been taken:
no code path publishes a handle with a pipe still attached. -/
theorem claim_C4_pipes_taken_before_publish (env : RunEnv)
    (config : TaskConfig) :
    (∀ c, (runPre env config none).slot = some c →
      c.stdoutPipe = none ∧ c.stderrPipe = none) ∧
    (∀ p so se cs c, runPre env config none = p → p.outcome = .ok (so, se) →
      (machRun env config cs (mkInit env p so se)).slot = some c →
      c.stdoutPipe = none ∧ c.stderrPipe = none) := by
  constructor
  · intro c hc
    cases houtcome : (runPre env config none).outcome with
    | error e =>
        have hs := (runPre_props env config none).2.2 e houtcome
        rw [hs] at hc
        exact Option.noConfusion hc
    | ok v =>
        have hs := (runPre_props env config none).2.1 v.1 v.2
          (by rw [houtcome])
        rw [hs] at hc
        cases hc
        exact ⟨rfl, rfl⟩
  · intro p so se cs c hpre hok hc
    have hinv := machRun_inv env config so se cs _
      (mkInit_inv env config p so se hpre hok)
    rw [hinv.slot_gutted c hc]
    exact ⟨rfl, rfl⟩

/-- C4 witness. -/
theorem claim_C4_pipes_taken_before_publish_witness :
    Child.stdoutPipe ⟨none, none⟩ = none ∧
      Child.stderrPipe ⟨none, none⟩ = none :=
  (claim_C4_pipes_taken_before_publish oneLineEnv raceCfg).1
    ⟨none, none⟩ (by decide)

/-- C9: assuming the slot is empty at entry (at most one run in flight),
on every return path of `run_python_task` the shared slot is empty at
return: every pre-spawn error leaves it untouched, and in the concurrent
phase every schedule that reaches a returned main task — normal
completion, wait error, observed cancellation, join failure, or
completion-emit failure — leaves the slot empty. -/
theorem claim_C9_slot_empty_on_return (env : RunEnv) (config : TaskConfig) :
    (∀ e, (runPre env config none).outcome = .error e →
      (runPre env config none).slot = none) ∧
    (∀ p so se cs r, runPre env config none = p → p.outcome = .ok (so, se) →
      (machRun env config cs (mkInit env p so se)).main = .finished r →
      (machRun env config cs (mkInit env p so se)).slot = none) := by
  constructor
  · intro e he
    exact (runPre_props env config none).2.2 e he
  · intro p so se cs r hpre hok hfin
    have hinv := machRun_inv env config so se cs _
      (mkInit_inv env config p so se hpre hok)
    exact hinv.slot_after (by rw [hfin]; exact fun hw => MainPC.noConfusion hw)

/-- C9 witness. -/
theorem claim_C9_slot_empty_on_return_witness :
    (machRun oneLineEnv raceCfg [.so, .so, .se, .main, .main, .main, .main]
      (mkInit oneLineEnv (runPre oneLineEnv raceCfg none) ["hello"] [])).slot =
      none :=
  (claim_C9_slot_empty_on_return oneLineEnv raceCfg).2
    (runPre oneLineEnv raceCfg none) ["hello"] []
    [.so, .so, .se, .main, .main, .main, .main]
    (.ok ⟨"hello", "", 0⟩) rfl (by decide) (by decide)

end FmSkinBuilder
